import Mathlib

/-!
Shallow embedding of the Pantamak marketplace UI API layer
(`src/lib/api.ts`) and of the data hooks that consume it
(the hooks module shipped alongside `src/app/globals.css`:
`useProducts`, `useInitialData`).

Modelling conventions:
* JavaScript error objects become the inductive `JsError`; the
  `instanceof` tests of the source become the Boolean fields
  `isAPIError`, `isNetworkError`, `isTypeError` (a `NetworkError`
  is an `APIError` subclass, so its constructor sets both flags).
* JavaScript numbers that the code uses as integers (HTTP status
  codes, millisecond delays, prices) are modelled as `Int` or `Nat`.
* A fetch attempt is an abstract outcome (`FetchOutcome`): either an
  HTTP response with a status code, or a thrown error. The behaviour
  of the network on attempt `i` is a function `Nat → FetchOutcome`.
* Fallible code returns `Except JsError α`.
-/

namespace Pantamak

/-- Model of a JavaScript error value: runtime class name, message,
the optional `status` and `code` fields carried by `APIError`
(`src/lib/api.ts` lines 7-17), the `instanceof` flags, and the
optional wrapped original error. -/
inductive JsError where
  | mk (name : String) (message : String) (status : Option Int)
       (code : Option String) (isAPIError : Bool) (isNetworkError : Bool)
       (isTypeError : Bool) (originalError : Option JsError)

/-- Runtime class name of the error. -/
def JsError.name : JsError → String
  | .mk n _ _ _ _ _ _ _ => n

/-- Message carried by the error. -/
def JsError.message : JsError → String
  | .mk _ m _ _ _ _ _ _ => m

/-- Optional HTTP status attached to an `APIError`; `none` models the
JavaScript value `undefined`. -/
def JsError.status : JsError → Option Int
  | .mk _ _ st _ _ _ _ _ => st

/-- Optional machine code attached to an `APIError`. -/
def JsError.code : JsError → Option String
  | .mk _ _ _ c _ _ _ _ => c

/-- Whether the value satisfies `instanceof APIError`. -/
def JsError.isAPIError : JsError → Bool
  | .mk _ _ _ _ api _ _ _ => api

/-- Whether the value satisfies `instanceof NetworkError`. -/
def JsError.isNetworkError : JsError → Bool
  | .mk _ _ _ _ _ net _ _ => net

/-- Whether the value satisfies `instanceof TypeError` (the error a
browser `fetch` throws on a transport failure). -/
def JsError.isTypeError : JsError → Bool
  | .mk _ _ _ _ _ _ te _ => te

/-- Original error wrapped by an `APIError`, when any. -/
def JsError.originalError : JsError → Option JsError
  | .mk _ _ _ _ _ _ _ o => o

/-- Constructor call `new APIError(message, status, code, originalError)`
from `src/lib/api.ts` lines 7-17: an `Error` whose `name` is
`APIError` and which satisfies `instanceof APIError`. -/
def APIError.new (message : String) (status : Option Int)
    (code : Option String) (originalError : Option JsError) : JsError :=
  JsError.mk ("APIError") message status code true false false originalError

/-- Constructor call `new NetworkError(message, originalError)` from
`src/lib/api.ts` lines 19-24: an `APIError` with status `0`, code
`NETWORK_ERROR`, and name `NetworkError`; as a subclass instance it
satisfies both `instanceof APIError` and `instanceof NetworkError`. -/
def NetworkError.new (message : String) (originalError : Option JsError) : JsError :=
  JsError.mk ("NetworkError") message (some 0) (some ("NETWORK_ERROR")) true true false originalError

/-- A raw `TypeError` as thrown by `fetch` on a transport failure
(DNS failure, connection refused): not an `APIError`. -/
def TypeError.new (message : String) : JsError :=
  JsError.mk ("TypeError") message none none false false true none

/-- The `DOMException` named `AbortError` produced when an
`AbortController` attached to a `fetch` call is aborted (either by the
30-second timeout of `fetchWithRetry` or by a caller): not an
`APIError`, not a `TypeError`, recognised only by its `name`. -/
def AbortError.new : JsError :=
  JsError.mk ("AbortError") ("The operation was aborted") none none false false false none

/-- Model of a `fetch` `Response`: only the status code matters to the
control flow of `src/lib/api.ts`. -/
structure Response where
  status : Int
deriving Repr, DecidableEq

/-- The `response.ok` getter of the Fetch standard: status in the
range 200-299. -/
def Response.ok (r : Response) : Bool :=
  decide (200 ≤ r.status ∧ r.status < 300)

/-- Outcome of one underlying `fetch` call: either a response arrives,
or the call throws (transport failure, abort, ...). -/
inductive FetchOutcome where
  | respond (resp : Response)
  | throwErr (e : JsError)

/-- Retry configuration interface `RetryConfig` of `src/lib/api.ts`
lines 30-35. The source stores JavaScript numbers; the program only
ever uses non-negative integers, modelled as `Nat`. -/
structure RetryConfig where
  maxRetries : Nat
  baseDelay : Nat
  maxDelay : Nat
  backoffMultiplier : Nat
deriving Repr, DecidableEq

/-- The constant `DEFAULT_RETRY_CONFIG` of `src/lib/api.ts` lines 37-42. -/
def DEFAULT_RETRY_CONFIG : RetryConfig :=
  ⟨3, 1000, 10000, 2⟩

/-- The function `calculateDelay` of `src/lib/api.ts` lines 49-52:
`min(baseDelay * backoffMultiplier ^ attempt, maxDelay)`. -/
def calculateDelay (attempt : Nat) (config : RetryConfig) : Nat :=
  min (config.baseDelay * config.backoffMultiplier ^ attempt) config.maxDelay

/-- Body of the `try` block of `fetchWithRetry` (`src/lib/api.ts`
lines 63-99) once the `fetch` call has settled: return the response
when `response.ok`; throw an `APIError` with code `HTTP_ERROR` for a
non-ok status below 500; throw an `APIError` with code `SERVER_ERROR`
for a status of 500 or above; propagate a thrown error unchanged. -/
def attemptBody (o : FetchOutcome) : Except JsError Response :=
  match o with
  | .respond resp =>
      if resp.ok then .ok resp
      else if resp.status < 500 then
        .error (APIError.new ("HTTP error! status: " ++ toString resp.status)
          (some resp.status) (some ("HTTP_ERROR")) none)
      else
        .error (APIError.new ("Server error: " ++ toString resp.status)
          (some resp.status) (some ("SERVER_ERROR")) none)
  | .throwErr e => .error e

/-- JavaScript truthiness of the optional numeric `status` field:
`undefined` and `0` are falsy. -/
def statusTruthy : Option Int → Bool
  | none => false
  | some s => decide (s ≠ 0)

/-- The guard `error instanceof APIError && error.status && error.status < 500`
of `src/lib/api.ts` line 105: such an error is re-thrown at once
without consuming further attempts. -/
def isNonRetriableThrow (e : JsError) : Bool :=
  e.isAPIError && statusTruthy e.status &&
    (match e.status with
     | some s => decide (s < 500)
     | none => false)

/-- The guard of `src/lib/api.ts` lines 110-112: `error instanceof
TypeError || error.name === AbortError || error.code === NETWORK_ERR`. -/
def isNetworkish (e : JsError) : Bool :=
  e.isTypeError || e.name == ("AbortError") || e.code == some ("NETWORK_ERR")

/-- Message used by the `NetworkError` conversion at `src/lib/api.ts`
line 113. -/
def connectFailMessage : String :=
  "Unable to connect to the server. Please check your internet connection."

/-- Conversion applied to a caught retriable error before it is stored
in `lastError` (`src/lib/api.ts` lines 110-114): network-like errors
(including any error named `AbortError`) are wrapped in a fresh
`NetworkError`; anything else is kept as is. -/
def convertCaught (e : JsError) : JsError :=
  if isNetworkish e then NetworkError.new connectFailMessage (some e) else e

/-- Trace of one `fetchWithRetry` call: how many attempts ran, the
delays slept between attempts, and the final result. -/
structure FetchTrace where
  attempts : Nat
  delays : List Nat
  result : Except JsError Response

/-- The `for` loop of `fetchWithRetry` (`src/lib/api.ts` lines 62-126),
unrolled on the number of remaining attempts: `remaining = maxRetries - attempt`.
Each iteration runs the attempt body; on success it returns; on a
non-retriable error it throws immediately; otherwise it converts the
error, and either throws it (no attempts remain) or sleeps
`calculateDelay attempt config` and retries. -/
def fetchLoop (f : Nat → FetchOutcome) (config : RetryConfig)
    (attempt : Nat) (remaining : Nat) : FetchTrace :=
  match attemptBody (f attempt) with
  | .ok resp => ⟨1, [], .ok resp⟩
  | .error e =>
    if isNonRetriableThrow e then ⟨1, [], .error e⟩
    else
      match remaining with
      | 0 => ⟨1, [], .error (convertCaught e)⟩
      | Nat.succ r =>
        let t := fetchLoop f config (attempt + 1) r
        ⟨t.attempts + 1, calculateDelay attempt config :: t.delays, t.result⟩

/-- The function `fetchWithRetry` of `src/lib/api.ts` lines 55-129,
applied to a network behaviour `f` (the outcome of the underlying
`fetch` on each 0-based attempt index) and a retry configuration.
Note that the source builds its own `AbortController` per attempt and
passes `signal: controller.signal` after spreading `options`, so any
caller-supplied abort signal is discarded; the network behaviour `f`
therefore cannot be influenced by the caller. -/
def fetchWithRetry (f : Nat → FetchOutcome) (config : RetryConfig) : FetchTrace :=
  fetchLoop f config 0 config.maxRetries

lemma fetchLoop_all_retriable (f : Nat → FetchOutcome) (config : RetryConfig)
    (errs : Nat → JsError) :
    ∀ (remaining attempt : Nat),
      (∀ i, attempt ≤ i → i ≤ attempt + remaining →
         attemptBody (f i) = .error (errs i) ∧ isNonRetriableThrow (errs i) = false) →
      (fetchLoop f config attempt remaining).attempts = remaining + 1 ∧
      (fetchLoop f config attempt remaining).result =
        .error (convertCaught (errs (attempt + remaining))) := by
  intro remaining
  induction remaining with
  | zero =>
    intro attempt h
    obtain ⟨h1, h2⟩ := h attempt le_rfl (by omega)
    unfold fetchLoop
    rw [h1]
    simp [h2]
  | succ r ih =>
    intro attempt h
    obtain ⟨h1, h2⟩ := h attempt le_rfl (by omega)
    obtain ⟨ihA, ihR⟩ := ih (attempt + 1) (fun i hi1 hi2 => h i (by omega) (by omega))
    unfold fetchLoop
    rw [h1]
    simp only [h2, Bool.false_eq_true, if_false]
    refine ⟨by simpa using ihA, ?_⟩
    have harith : attempt + 1 + r = attempt + (r + 1) := by omega
    simpa [harith] using ihR

/-- C1: for every retry policy with `maxRetries = n` and every network
behaviour that fails with a retriable (not immediately re-thrown)
error on every attempt, `fetchWithRetry` performs exactly `n + 1`
attempts and the error finally raised is the classified
(`NetworkError`-converted when transport-like) error of the last
attempt. -/
theorem fetchWithRetry_exhausts_on_retriable (f : Nat → FetchOutcome)
    (config : RetryConfig) (errs : Nat → JsError)
    (h : ∀ i, i ≤ config.maxRetries →
       attemptBody (f i) = .error (errs i) ∧ isNonRetriableThrow (errs i) = false) :
    (fetchWithRetry f config).attempts = config.maxRetries + 1 ∧
    (fetchWithRetry f config).result =
      .error (convertCaught (errs config.maxRetries)) := by
  have := fetchLoop_all_retriable f config errs config.maxRetries 0
    (fun i h1 h2 => h i (by omega))
  simpa [fetchWithRetry] using this

/-- Witness for C1: with `maxRetries = 1` and every attempt answering
HTTP 503, there are exactly two attempts and the raised error is the
`SERVER_ERROR` classification of the last response. -/
theorem fetchWithRetry_exhausts_on_retriable_witness :
    (fetchWithRetry (fun _ => .respond ⟨503⟩) ⟨1, 1000, 10000, 2⟩).attempts = 2 ∧
    (fetchWithRetry (fun _ => .respond ⟨503⟩) ⟨1, 1000, 10000, 2⟩).result =
      .error (APIError.new ("Server error: 503") (some 503) (some ("SERVER_ERROR")) none) :=
  fetchWithRetry_exhausts_on_retriable (fun _ => .respond ⟨503⟩) ⟨1, 1000, 10000, 2⟩
    (fun _ => APIError.new ("Server error: 503") (some 503) (some ("SERVER_ERROR")) none)
    (fun _ _ => ⟨rfl, rfl⟩)

/-- C4: an operation whose first attempt yields an HTTP response with
a status in `[400, 499]` makes `fetchWithRetry` perform exactly one
attempt and raise the `HTTP_ERROR` classification of that response at
once, whatever the retry policy says. -/
theorem fetchWithRetry_non_retriable_single_attempt (f : Nat → FetchOutcome)
    (config : RetryConfig) (s : Int)
    (h0 : f 0 = .respond ⟨s⟩) (h4 : 400 ≤ s) (h5 : s ≤ 499) :
    (fetchWithRetry f config).attempts = 1 ∧
    (fetchWithRetry f config).delays = [] ∧
    (fetchWithRetry f config).result =
      .error (APIError.new ("HTTP error! status: " ++ toString s)
        (some s) (some ("HTTP_ERROR")) none) := by
  have hok : (Response.mk s).ok = false := by
    simp only [Response.ok, decide_eq_false_iff_not]
    omega
  have hlt : decide (s < 500) = true := by simp; omega
  have htr : statusTruthy (some s) = true := by
    simp only [statusTruthy, decide_eq_true_eq]
    omega
  unfold fetchWithRetry fetchLoop
  rw [h0]
  simp only [attemptBody, hok, Bool.false_eq_true, if_false]
  have hnr : isNonRetriableThrow
      (APIError.new ("HTTP error! status: " ++ toString s)
        (some s) (some ("HTTP_ERROR")) none) = true := by
    simp only [isNonRetriableThrow, APIError.new, JsError.isAPIError, JsError.status,
      htr, hlt, Bool.and_true, Bool.true_and]
  rw [if_pos (show s < 500 by omega)]
  simp [hnr]

/-- Witness for C4: a constant HTTP 404 under the default policy
(`maxRetries = 3`) is attempted once and raised as `HTTP_ERROR`. -/
theorem fetchWithRetry_non_retriable_single_attempt_witness :
    (fetchWithRetry (fun _ => .respond ⟨404⟩) DEFAULT_RETRY_CONFIG).attempts = 1 ∧
    (fetchWithRetry (fun _ => .respond ⟨404⟩) DEFAULT_RETRY_CONFIG).delays = [] ∧
    (fetchWithRetry (fun _ => .respond ⟨404⟩) DEFAULT_RETRY_CONFIG).result =
      .error (APIError.new ("HTTP error! status: 404")
        (some 404) (some ("HTTP_ERROR")) none) :=
  fetchWithRetry_non_retriable_single_attempt (fun _ => .respond ⟨404⟩)
    DEFAULT_RETRY_CONFIG 404 rfl (by decide) (by decide)

/-- C5: the delay before the retry following 0-based attempt `i` is
`min(baseDelay * backoffMultiplier ^ i, maxDelay)`; under the default
policy the schedule for attempts 0-4 is 1000, 2000, 4000, 8000,
10000 milliseconds. -/
theorem calculateDelay_formula_and_schedule :
    (∀ (i : Nat) (config : RetryConfig),
       calculateDelay i config =
         min (config.baseDelay * config.backoffMultiplier ^ i) config.maxDelay) ∧
    (List.range 5).map (fun i => calculateDelay i DEFAULT_RETRY_CONFIG) =
      [1000, 2000, 4000, 8000, 10000] :=
  ⟨fun _ _ => rfl, by decide⟩

/-- C2 fails on the code: an error whose `name` is `AbortError` — which
is what a caller-initiated abort produces — is treated by the catch
block of `fetchWithRetry` exactly like a transport failure. With
`maxRetries = 1` and the abort arriving on attempt 0, the call is
retried (two attempts run and the second response is returned), and
with no attempts remaining the abort is raised converted into a
generic `NetworkError`; the claim requires immediate propagation with
no retry and no conversion. -/
theorem abortError_is_retried_and_converted :
    (fetchWithRetry (fun n => if n = 0 then .throwErr AbortError.new else .respond ⟨200⟩)
      ⟨1, 1000, 10000, 2⟩).attempts = 2 ∧
    (fetchWithRetry (fun n => if n = 0 then .throwErr AbortError.new else .respond ⟨200⟩)
      ⟨1, 1000, 10000, 2⟩).result = .ok ⟨200⟩ ∧
    (fetchWithRetry (fun _ => .throwErr AbortError.new) ⟨0, 1000, 10000, 2⟩).result =
      .error (NetworkError.new connectFailMessage (some AbortError.new)) :=
  ⟨rfl, rfl, rfl⟩

/-- Model of the JavaScript values that can appear in the
`Record<string, any>` parameter maps handed to the API client
(`null`, `undefined`, strings, integral numbers, booleans). -/
inductive JsValue where
  | vNull
  | vUndefined
  | vStr (s : String)
  | vNum (n : Int)
  | vBool (b : Bool)
deriving Repr, DecidableEq

/-- JavaScript `String(value)` coercion on a `JsValue`. -/
def JsValue.toStr : JsValue → String
  | .vNull => "null"
  | .vUndefined => "undefined"
  | .vStr s => s
  | .vNum n => toString n
  | .vBool b => if b then "true" else "false"

/-- The filter condition of `PantamakAPI.getProducts`
(`src/lib/api.ts` line 256):
`value !== undefined && value !== null && value !== ""`. -/
def keepsParam (value : JsValue) : Bool :=
  !(value == JsValue.vUndefined) && !(value == JsValue.vNull) &&
    !(value == JsValue.vStr (""))

/-- The parameter-cleaning loop of `PantamakAPI.getProducts`
(`src/lib/api.ts` lines 252-259): keep the entries passing
`keepsParam` and append `(key, String(value))` to the search
parameters, in order. Percent-encoding by `URLSearchParams` is not
modelled; the claims only concern which keys appear and with which
string values. -/
def buildSearchParams (params : List (String × JsValue)) : List (String × String) :=
  (params.filter (fun kv => keepsParam kv.2)).map (fun kv => (kv.1, kv.2.toStr))

/-- Modelled from the spec wording for comparison: a value is retained
exactly when it is not `null`, not `undefined` and not the empty
string. -/
def specRetainsValue (value : JsValue) : Bool :=
  !(value == JsValue.vNull) && !(value == JsValue.vUndefined) &&
    !(value == JsValue.vStr (""))

lemma keepsParam_eq_specRetainsValue (v : JsValue) :
    keepsParam v = specRetainsValue v := by
  cases v <;> rfl

/-- C6: the query string of `getProducts` contains exactly the entries
whose value is not `null`, not `undefined` and not the empty string,
each coerced with `String(...)`; in particular
`{page: 1, query: "", category: "all", min_price: 0}` omits `query`
but retains `page=1` and `min_price=0`. -/
theorem getProducts_param_omission :
    (∀ params : List (String × JsValue),
       buildSearchParams params =
         (params.filter (fun kv => specRetainsValue kv.2)).map
           (fun kv => (kv.1, kv.2.toStr))) ∧
    buildSearchParams
        [("page", .vNum 1), ("query", .vStr ("")), ("category", .vStr ("all")),
         ("min_price", .vNum 0)] =
      [("page", "1"), ("category", "all"), ("min_price", "0")] := by
  constructor
  · intro params
    unfold buildSearchParams
    have hfun : (fun kv : String × JsValue => keepsParam kv.2) =
        (fun kv : String × JsValue => specRetainsValue kv.2) :=
      funext fun kv => keepsParam_eq_specRetainsValue kv.2
    rw [hfun]
  · rfl

/-- Item shape of the `shops` field of `SearchSuggestions`
(`src/lib/api.ts` lines 242-246). -/
structure SuggestionShop where
  id : Int
  name : String
  city : Option String
deriving Repr, DecidableEq

/-- Item shape of the `products` field of `SearchSuggestions`. -/
structure SuggestionProduct where
  id : Int
  name : String
  price : Int
deriving Repr, DecidableEq

/-- Item shape of the `categories` field of `SearchSuggestions`. -/
structure SuggestionCategory where
  value : String
  label : String
deriving Repr, DecidableEq

/-- The `SearchSuggestions` interface of `src/lib/api.ts` lines 242-246. -/
structure SearchSuggestions where
  shops : List SuggestionShop
  products : List SuggestionProduct
  categories : List SuggestionCategory
deriving Repr, DecidableEq

/-- How an API-client operation is resolved: either locally, with a
value and no network traffic, or by delegating to `apiRequest` on an
endpoint. -/
inductive ApiCall (α : Type) where
  | resolvedLocally (value : α)
  | request (endpoint : String)
deriving Repr

/-- The method `PantamakAPI.getSearchSuggestions` of `src/lib/api.ts`
lines 300-306: a query shorter than 2 characters resolves locally to
the empty suggestion structure; otherwise the call delegates to
`apiRequest` on the suggestions endpoint. The browser built-in
`encodeURIComponent` is passed in as the abstract encoder `enc`. -/
def getSearchSuggestions (enc : String → String) (query : String) :
    ApiCall SearchSuggestions :=
  if query.length < 2 then .resolvedLocally ⟨[], [], []⟩
  else .request ("/search/suggestions?query=" ++ enc query)

/-- C9: a query of length below 2 makes `getSearchSuggestions` return
the empty-result structure locally, with no network call; a query of
length at least 2 delegates to the network. -/
theorem getSearchSuggestions_short_circuit (enc : String → String) (query : String) :
    (query.length < 2 →
       getSearchSuggestions enc query = .resolvedLocally ⟨[], [], []⟩) ∧
    (2 ≤ query.length →
       getSearchSuggestions enc query =
         .request ("/search/suggestions?query=" ++ enc query)) := by
  constructor
  · intro h
    unfold getSearchSuggestions
    rw [if_pos h]
  · intro h
    unfold getSearchSuggestions
    rw [if_neg (by omega)]

/-- Witness for C9: the one-character query resolves locally and the
two-character query goes to the network. -/
theorem getSearchSuggestions_short_circuit_witness :
    getSearchSuggestions id ("a") = .resolvedLocally ⟨[], [], []⟩ ∧
    getSearchSuggestions id ("ab") = .request ("/search/suggestions?query=ab") :=
  ⟨(getSearchSuggestions_short_circuit id ("a")).1 (by decide),
   (getSearchSuggestions_short_circuit id ("ab")).2 (by decide)⟩

/-- JavaScript comparison `status >= 500` on the optional status
field: `undefined >= 500` evaluates to `false`. -/
def statusGe500 : Option Int → Bool
  | none => false
  | some s => decide (500 ≤ s)

/-- The function `isRetriableError` of `src/lib/api.ts` lines 349-359. -/
def isRetriableError (e : JsError) : Bool :=
  if e.isNetworkError then true
  else if e.isAPIError then
    (e.code == some ("SERVER_ERROR")) || (e.status == none) || statusGe500 e.status
  else false

/-- C10: `isRetriableError` holds exactly on `NetworkError` instances
and on `APIError` instances whose code is `SERVER_ERROR`, whose status
is `undefined`, or whose status is at least 500; it is false on a raw
`TypeError`, even though the catch block of `fetchWithRetry` does not
re-throw such a transport failure immediately and, with a retry
remaining, runs a second attempt after one. -/
theorem isRetriableError_characterization :
    (∀ e : JsError, isRetriableError e = true ↔
       (e.isNetworkError = true ∨
        (e.isAPIError = true ∧
         (e.code = some ("SERVER_ERROR") ∨ e.status = none ∨
          ∃ s, e.status = some s ∧ 500 ≤ s)))) ∧
    (∀ msg : String, isRetriableError (TypeError.new msg) = false) ∧
    (∀ msg : String, isNonRetriableThrow (TypeError.new msg) = false) ∧
    (fetchWithRetry (fun _ => .throwErr (TypeError.new ("Failed to fetch")))
      ⟨1, 1000, 10000, 2⟩).attempts = 2 := by
  refine ⟨?_, fun _ => rfl, fun _ => rfl, rfl⟩
  intro e
  rcases e with ⟨n, m, st, c, api, net, te, orig⟩
  cases net <;> cases api <;> cases st <;>
    simp [isRetriableError, JsError.isNetworkError, JsError.isAPIError,
      JsError.code, JsError.status, statusGe500]

/-- Envelope shape of a parsed JSON response body as consumed by
`apiRequest`: the `success` flag, the optional `error` message field
(`none` models an absent or `undefined` field) and the payload. -/
structure Envelope (D : Type) where
  success : Bool
  error : Option String
  data : D

/-- JavaScript `data.error || "API request failed"`: the default is
used when the field is absent or the empty string, both falsy. -/
def jsOrDefault (s : Option String) (d : String) : String :=
  match s with
  | some s => if s = ("") then d else s
  | none => d

/-- Body of the `try` block of `apiRequest` (`src/lib/api.ts` lines
135-147): run `fetchWithRetry` under the default retry policy, parse
the body with `json` (which may itself throw), raise an `API_ERROR`
carrying the envelope message and the HTTP status when the envelope
has `success = false`, and return the payload otherwise. -/
def apiRequestTry {D : Type} (f : Nat → FetchOutcome)
    (json : Response → Except JsError (Envelope D)) : Except JsError D :=
  match (fetchWithRetry f DEFAULT_RETRY_CONFIG).result with
  | .error e => .error e
  | .ok response =>
    match json response with
    | .error e => .error e
    | .ok data =>
      if data.success then .ok data.data
      else .error (APIError.new (jsOrDefault data.error ("API request failed"))
        (some response.status) (some ("API_ERROR")) none)

/-- The function `apiRequest` of `src/lib/api.ts` lines 132-162: the
catch block re-throws `APIError` instances unchanged and wraps
anything else as an `UNKNOWN_ERROR` `APIError` with status 500 and the
original error attached. -/
def apiRequest {D : Type} (f : Nat → FetchOutcome)
    (json : Response → Except JsError (Envelope D)) : Except JsError D :=
  match apiRequestTry f json with
  | .ok d => .ok d
  | .error e =>
    if e.isAPIError then .error e
    else .error (APIError.new ("An unexpected error occurred") (some 500)
      (some ("UNKNOWN_ERROR")) (some e))

/-- C8: every error escaping `apiRequest` is a typed `APIError`; a
`success = false` envelope raises an `API_ERROR` carrying the
server-supplied message (or the default) and the HTTP status; and
anything thrown inside the try block that is not already an `APIError`
is wrapped as `UNKNOWN_ERROR` with status 500 and the original cause
attached. -/
theorem apiRequest_normalizes_errors {D : Type} (f : Nat → FetchOutcome)
    (json : Response → Except JsError (Envelope D)) :
    (∀ e, apiRequest f json = .error e → e.isAPIError = true) ∧
    (∀ (resp : Response) (env : Envelope D),
       (fetchWithRetry f DEFAULT_RETRY_CONFIG).result = .ok resp →
       json resp = .ok env → env.success = false →
       apiRequest f json =
         .error (APIError.new (jsOrDefault env.error ("API request failed"))
           (some resp.status) (some ("API_ERROR")) none)) ∧
    (∀ e, apiRequestTry f json = .error e → e.isAPIError = false →
       apiRequest f json =
         .error (APIError.new ("An unexpected error occurred") (some 500)
           (some ("UNKNOWN_ERROR")) (some e))) := by
  refine ⟨?_, ?_, ?_⟩
  · intro e h
    unfold apiRequest at h
    cases htry : apiRequestTry f json with
    | ok d =>
      rw [htry] at h
      simp at h
    | error e0 =>
      rw [htry] at h
      by_cases hapi : e0.isAPIError = true
      · simp only [hapi, if_true] at h
        injection h with h2
        subst h2
        exact hapi
      · simp only [hapi, if_false, Bool.false_eq_true] at h
        injection h with h2
        subst h2
        rfl
  · intro resp env h1 h2 h3
    unfold apiRequest apiRequestTry
    rw [h1]
    simp [h2, h3, APIError.new, JsError.isAPIError]
  · intro e h hnot
    unfold apiRequest
    rw [h]
    simp [hnot]

/-- Network behaviour used by the C8 witness: the first attempt
answers HTTP 200. -/
def sampleFetchOk : Nat → FetchOutcome :=
  fun _ => .respond ⟨200⟩

/-- Parse behaviour used by the C8 witness: the body parses to an
envelope with `success = false` and a server-supplied message. -/
def sampleJsonFail : Response → Except JsError (Envelope Nat) :=
  fun _ => .ok ⟨false, some ("boom"), 0⟩

/-- Witness for C8: with an HTTP 200 transport and a `success = false`
envelope carrying the message `boom`, `apiRequest` raises the typed
`API_ERROR` with that message and status 200, and that error is an
`APIError` instance. -/
theorem apiRequest_normalizes_errors_witness :
    apiRequest sampleFetchOk sampleJsonFail =
      .error (APIError.new ("boom") (some 200) (some ("API_ERROR")) none) ∧
    (APIError.new ("boom") (some 200) (some ("API_ERROR")) none).isAPIError = true := by
  have happ := (apiRequest_normalizes_errors sampleFetchOk sampleJsonFail).2.1
    ⟨200⟩ ⟨false, some ("boom"), 0⟩ rfl rfl rfl
  exact ⟨happ, (apiRequest_normalizes_errors sampleFetchOk sampleJsonFail).1 _ happ⟩

/-- The function `getErrorMessage` of `src/lib/api.ts` lines 320-347,
with the `switch` on `error.code` written as an equality chain, and
restricted to `Error` values: every `JsError` of this embedding models
an `Error` instance, so the final catch-all branch for non-`Error`
values is unreachable here. -/
def getErrorMessage (e : JsError) : String :=
  if e.isNetworkError then
    "Unable to connect to the server. Please check your internet connection and try again."
  else if e.isAPIError then
    if e.code == some ("HTTP_ERROR") then
      if e.status == some 404 then "The requested resource was not found."
      else if e.status == some 400 then
        "Invalid request. Please check your input and try again."
      else e.message
    else if e.code == some ("SERVER_ERROR") then
      "Server error. Please try again in a few moments."
    else e.message
  else e.message

/-- State owned by one `useProducts` hook instance (hooks module,
`useProducts`): the `data`, `loading` and `error` React state cells.
The `abortControllerRef` cell does not appear: its signal is never
passed to `PantamakAPI.getProducts` — which accepts only the params
record — and `fetchWithRetry` overrides `options.signal` with its own
per-attempt controller, so aborting that controller cannot affect a
pending request or its continuation. -/
structure HookState (α : Type) where
  data : Option α
  loading : Bool
  error : Option String
deriving Repr, DecidableEq

/-- Initial `useProducts` state for `enabled = true`: no data,
loading, no error. -/
def initialHookState (α : Type) : HookState α :=
  ⟨none, true, none⟩

/-- One observable event inside a `useProducts` hook instance:
`issueFetch` is an invocation of `fetchProducts` (abort the previous
controller — a no-op on the pending promise, see `HookState` — then
`setLoading(true)` and `setError(null)`); `settle o` is the resumption
of one earlier `await PantamakAPI.getProducts(...)` whose outcome was
`o`. -/
inductive HookEvent (α : Type) where
  | issueFetch
  | settle (outcome : Except JsError α)

/-- State transition of `useProducts` for one event, following the
body of `fetchProducts`: a settled success stores the response with
`setData`; a settled failure stores `getErrorMessage err` unless the
error is named `AbortError`; either settlement then runs the
`finally` `setLoading(false)`. Because the abort signal is never
connected to the network call, a superseded fetch still settles
normally and still mutates state. -/
def useProductsStep {α : Type} (s : HookState α) (ev : HookEvent α) : HookState α :=
  match ev with
  | .issueFetch => ⟨s.data, true, none⟩
  | .settle (.ok v) => ⟨some v, false, s.error⟩
  | .settle (.error e) =>
    ⟨s.data, false,
     if e.name == ("AbortError") then s.error else some (getErrorMessage e)⟩

/-- Run of one `useProducts` hook instance over a sequence of events. -/
def runHook {α : Type} (s : HookState α) (evs : List (HookEvent α)) : HookState α :=
  evs.foldl useProductsStep s

/-- C3 fails on the code: issue fetch A, issue fetch B before A
resolves, let B settle first with data `2`, then let the slower A
settle with data `1`. The abort performed when B was issued cannot
cancel A, so the resolution of A runs last and the final hook state
holds the stale data `1` of A — not the data `2` of B that the claim
requires. -/
theorem useProducts_stale_response_overwrites :
    (runHook (initialHookState Nat)
        [.issueFetch, .issueFetch, .settle (.ok 2), .settle (.ok 1)]).data = some 1 ∧
    some 1 ≠ some 2 :=
  ⟨rfl, by decide⟩

/-- Result of one promise inside `Promise.allSettled`. -/
inductive Settled (α : Type) where
  | fulfilled (value : α)
  | rejected (reason : JsError)

/-- Whether a settled promise has status `rejected`. -/
def Settled.isRejected {α : Type} : Settled α → Bool
  | .rejected _ => true
  | .fulfilled _ => false

/-- State of the `useInitialData` hook: the `loading`, `error`,
`products`, `categories` and `cities` React state cells. -/
structure InitialDataState (P C Ci : Type) where
  loading : Bool
  error : Option String
  products : Option P
  categories : Option C
  cities : Option Ci

/-- Initial `useInitialData` state: loading, no error, all three
resources `null`. -/
def initialDataInit (P C Ci : Type) : InitialDataState P C Ci :=
  ⟨true, none, none, none, none⟩

/-- Message set by `useInitialData` when all three fetches fail. -/
def allFailedMessage : String :=
  "Unable to load data. Please check your internet connection and try again."

/-- The body of `fetchInitialData` inside `useInitialData` (hooks
module): set loading, clear the error, record each fulfilled resource
independently, set the overall error message only when all three
settled promises rejected, and clear loading in the `finally` block. -/
def fetchInitialData {P C Ci : Type} (s : InitialDataState P C Ci)
    (productsResponse : Settled P) (categoriesResponse : Settled C)
    (citiesResponse : Settled Ci) : InitialDataState P C Ci :=
  let s1 : InitialDataState P C Ci := ⟨true, none, s.products, s.categories, s.cities⟩
  let s2 : InitialDataState P C Ci :=
    match productsResponse with
    | .fulfilled v => ⟨s1.loading, s1.error, some v, s1.categories, s1.cities⟩
    | .rejected _ => s1
  let s3 : InitialDataState P C Ci :=
    match categoriesResponse with
    | .fulfilled v => ⟨s2.loading, s2.error, s2.products, some v, s2.cities⟩
    | .rejected _ => s2
  let s4 : InitialDataState P C Ci :=
    match citiesResponse with
    | .fulfilled v => ⟨s3.loading, s3.error, s3.products, s3.categories, some v⟩
    | .rejected _ => s3
  let s5 : InitialDataState P C Ci :=
    if productsResponse.isRejected && categoriesResponse.isRejected &&
        citiesResponse.isRejected then
      ⟨s4.loading, some allFailedMessage, s4.products, s4.categories, s4.cities⟩
    else s4
  ⟨false, s5.error, s5.products, s5.categories, s5.cities⟩

/-- C7: starting from the initial hook state, when the products fetch
fulfils while the categories and cities fetches both reject, the hook
exposes the products, keeps categories and cities `null` and raises no
overall error; and the overall error is set if and only if all three
fetches reject. -/
theorem useInitialData_partial_failure {P C Ci : Type} :
    (∀ (v : P) (e1 e2 : JsError),
       fetchInitialData (initialDataInit P C Ci)
           (.fulfilled v) (.rejected e1) (.rejected e2) =
         ⟨false, none, some v, none, none⟩) ∧
    (∀ (pr : Settled P) (cr : Settled C) (ci : Settled Ci),
       (fetchInitialData (initialDataInit P C Ci) pr cr ci).error ≠ none ↔
         (pr.isRejected = true ∧ cr.isRejected = true ∧ ci.isRejected = true)) := by
  constructor
  · intro v e1 e2
    rfl
  · intro pr cr ci
    cases pr <;> cases cr <;> cases ci <;>
      simp [fetchInitialData, Settled.isRejected, allFailedMessage]

end Pantamak
